import Mathlib

set_option maxRecDepth 4000

/-!
Verification development for the Notetaking-Assistant backend.

The definitions below are a shallow embedding of the background polling task
`check_and_get_transcript` in `src/backend/tasks.py` and of the tracking-record
handling in `src/backend/main.py`.  Each definition is annotated with the source
lines it embeds.  The environment of one polling run (the remote notetaker
client, the media object, the HTTP fetch of the transcript URL and the JSON
decoder) is modelled by an explicit per-iteration script; the run itself is a
pure function from that script to the ordered list of document-store writes the
Python code issues via `transcript_collection.update_one`.
-/

/-- One `(speaker, text)` transcript segment, the element shape built at
`tasks.py` lines 112-115 and 121-125. -/
structure Segment where
  speaker : String
  text : String
deriving DecidableEq

/-- Decoded JSON values, the possible results of `json.loads(response.text)`
at `tasks.py` line 86. -/
inductive Json where
  | null : Json
  | bool (b : Bool) : Json
  | num (n : Int) : Json
  | str (s : String) : Json
  | arr (elems : List Json) : Json
  | obj (fields : List (String × Json)) : Json

/-- Python `str.strip()` on the character list of a string: drop whitespace
from both ends (used at `tasks.py` lines 107, 108, 124). -/
def trimCharList (l : List Char) : List Char :=
  ((l.dropWhile Char.isWhitespace).reverse.dropWhile Char.isWhitespace).reverse

/-- Python `str.strip()`. -/
def pyStrip (s : String) : String :=
  String.mk (trimCharList s.data)

/-- Python dict key lookup (`'transcript' in raw` / `entry.get(key, default)`);
JSON objects have unique keys, the first binding wins. -/
def jsonLookup : List (String × Json) → String → Option Json
  | [], _ => none
  | (k, v) :: rest, key => if k = key then some v else jsonLookup rest key

/-- Python iteration `for entry in transcript_array` (`tasks.py` line 104):
lists yield their elements, dicts yield their keys, strings yield their
characters, and every other value raises `TypeError` (caught by the generic
handler at `tasks.py` line 185). -/
def pyIter : Json → Except String (List Json)
  | Json.arr xs => Except.ok xs
  | Json.obj kvs => Except.ok (kvs.map (fun kv => Json.str kv.1))
  | Json.str s => Except.ok (s.data.map (fun c => Json.str (String.singleton c)))
  | _ => Except.error "TypeError: value is not iterable"

/-- `entry.get(key, default).strip()` (`tasks.py` lines 107-108): absent key
gives the stripped default, a string value is stripped, and any non-string
value raises `AttributeError` (caught by the generic handler at line 185). -/
def stripField (kvs : List (String × Json)) (key dflt : String) : Except String String :=
  match jsonLookup kvs key with
  | none => Except.ok (pyStrip dflt)
  | some (Json.str s) => Except.ok (pyStrip s)
  | some _ => Except.error "AttributeError: value has no strip method"

/-- The cleaning loop at `tasks.py` lines 102-126: dict entries keep stripped
text and speaker and are dropped when the stripped text is empty; plain string
entries are stripped and kept unconditionally; all other entries are skipped. -/
def cleanEntries : List Json → Except String (List Segment)
  | [] => Except.ok []
  | Json.obj kvs :: rest =>
    match stripField kvs "text" "" with
    | Except.error e => Except.error e
    | Except.ok text =>
      match stripField kvs "speaker" "Speaker" with
      | Except.error e => Except.error e
      | Except.ok speaker =>
        match cleanEntries rest with
        | Except.error e => Except.error e
        | Except.ok tail =>
          if text = "" then Except.ok tail
          else Except.ok (⟨speaker, text⟩ :: tail)
  | Json.str s :: rest =>
    match cleanEntries rest with
    | Except.error e => Except.error e
    | Except.ok tail => Except.ok (⟨"Speaker", pyStrip s⟩ :: tail)
  | _ :: rest => cleanEntries rest

/-- Unwrapping at `tasks.py` lines 91-99: a dict with a `transcript` key is
unwrapped to that value, a list is used directly, anything else is wrapped in
a one-element array. -/
def transcriptArray (raw : Json) : Json :=
  match raw with
  | Json.obj kvs =>
    match jsonLookup kvs "transcript" with
    | some v => v
    | none => Json.arr [raw]
  | Json.arr xs => Json.arr xs
  | other => Json.arr [other]

/-- The apostrophe character, used inside literal message texts. -/
def apos : String := String.singleton (Char.ofNat 39)

/-- The `empty_reason` message built at `tasks.py` lines 144-149.  The Python
source writes `\\n`, so the stored text contains a literal backslash-n. -/
def emptyReasonMsg : String :=
  "Transcript was empty. Possible reasons:\\n" ++
  "• Meeting was too short (< 30 seconds)\\n" ++
  "• No one spoke during the meeting\\n" ++
  ("• Transcription service couldn" ++ apos ++ "t detect clear audio\\n") ++
  ("• Meeting platform doesn" ++ apos ++
    "t support transcription for this type of meeting\\n") ++
  "• For Zoom: Ensure transcription is enabled in meeting settings"

/-- The placeholder text stored when the cleaned transcript array is empty
(`tasks.py` lines 151-154). -/
def emptyTranscriptMessage (nid : String) : String :=
  ("Meeting recorded (ID: " ++ nid ++ ") ") ++
    "but no transcript content available" ++ (". " ++ emptyReasonMsg)

/-- Normalization of a decoded transcript payload, `tasks.py` lines 91-155:
unwrap, iterate, clean, and replace an empty result by the single `System`
placeholder segment. -/
def normalizeTranscript (nid : String) (raw : Json) : Except String (List Segment) :=
  match pyIter (transcriptArray raw) with
  | Except.error e => Except.error e
  | Except.ok entries =>
    match cleanEntries entries with
    | Except.error e => Except.error e
    | Except.ok clean =>
      if clean = [] then Except.ok [⟨"System", emptyTranscriptMessage nid⟩]
      else Except.ok clean

/-- The `transcript` attribute of the media object (`media.data.transcript`),
carrying an optional URL. -/
structure TranscriptRef where
  url : Option String
deriving DecidableEq

/-- The media object returned by `get_media` (`tasks.py` line 56); the fields
the task inspects are `transcript`, `summary` and `title`. -/
structure MediaData where
  transcript : Option TranscriptRef
  summary : Option String
  title : Option String
deriving DecidableEq

/-- Python string truthiness (`if media.data.transcript.url:` etc.): a present
non-empty string. -/
def truthyStr : Option String → Option String
  | some s => if s = "" then none else some s
  | none => none

/-- Outcome of `http_client.get(transcript_url)` together with the JSON decode
of its body: a successful fetch carries the body text and the decode result
(`none` models `json.JSONDecodeError`); the error constructors are the handler
branches at `tasks.py` lines 162-187. -/
inductive FetchResult where
  | success (text : String) (decoded : Option Json)
  | httpStatusError (code : Nat)
  | timeoutError (msg : String)
  | requestError (msg : String)
  | otherError (msg : String)


/-- One write issued through `transcript_collection.update_one` by the task. -/
inductive DBWrite where
  | setStatus (status : String)
  | setReady (transcript : List Segment)
  | setFailed (reason : String)
  | setTimeout (reason : String)
deriving DecidableEq

/-- The `status` field value carried by a write (`tasks.py` lines 39, 45, 51,
221, 235, 262). -/
def DBWrite.statusOf : DBWrite → String
  | DBWrite.setStatus s => s
  | DBWrite.setReady _ => "ready"
  | DBWrite.setFailed _ => "failed"
  | DBWrite.setTimeout _ => "timeout"

/-- The reason stored with the post-loop timeout write (`tasks.py` line 262). -/
def timeoutReasonMsg : String := "Notetaker did not complete within expected time"

/-- The reason stored when media is available but no transcript data was
obtained (`tasks.py` line 232). -/
def failedFetchReasonMsg : String :=
  ("Media available but " ++ "failed to fetch transcript") ++
    " text - check logs for details"

/-- The summary/title fallback at `tasks.py` lines 198-204: summary is tried
first, then title, each under Python truthiness. -/
def altText (m : MediaData) : Option String :=
  match truthyStr m.summary with
  | some s => some ("Meeting Summary: " ++ s)
  | none =>
    match truthyStr m.title with
    | some t => some ("Meeting Title: " ++ t)
    | none => none

/-- `transcript_data` produced by the URL-fetch branch (`tasks.py` lines
77-187): a non-2xx status, timeout, request error or unexpected error leaves it
`None`; a body that fails JSON decoding is stored as one `Transcript` segment;
a decoded body goes through normalization, whose own runtime errors are caught
by the generic handler at line 185 and also leave `transcript_data` as `None`. -/
def fetchTranscriptData (nid : String) (fetch : FetchResult) : Option (List Segment) :=
  match fetch with
  | FetchResult.success text decoded =>
    match decoded with
    | some raw =>
      match normalizeTranscript nid raw with
      | Except.ok segs => some segs
      | Except.error _ => none
    | none => some [⟨"Transcript", text⟩]
  | _ => none

/-- `transcript_data` at the end of the `MEDIA_AVAILABLE` branch (`tasks.py`
lines 66-213): with a transcript object carrying a truthy URL the fetch branch
runs; with a transcript object but no truthy URL nothing is assigned (line
189-190); with no transcript object the summary/title fallback and final
placeholder run (lines 191-213). -/
def mediaTranscriptData (nid : String) (m : MediaData) (fetch : FetchResult) :
    Option (List Segment) :=
  match m.transcript with
  | some t =>
    match truthyStr t.url with
    | some _ => fetchTranscriptData nid fetch
    | none => none
  | none =>
    match altText m with
    | some a => some [⟨"System", a⟩]
    | none =>
      some [⟨"System", "Meeting recorded but transcript unavailable. Meeting ID: " ++ nid⟩]

/-- The single write issued at the end of the `MEDIA_AVAILABLE` branch
(`tasks.py` lines 215-242): `ready` with the transcript array when
`transcript_data` is set, otherwise `failed` with the fixed diagnostic. -/
def mediaWrite (nid : String) (m : MediaData) (fetch : FetchResult) : DBWrite :=
  match mediaTranscriptData nid m fetch with
  | some d => DBWrite.setReady d
  | none => DBWrite.setFailed failedFetchReasonMsg

/-- The remote states other than `MEDIA_AVAILABLE` (`NotetakerState`); `other`
covers any value outside the four known ones. -/
inductive PollState where
  | connecting
  | attending
  | mediaProcessing
  | other (s : String)
deriving DecidableEq

/-- What one loop iteration observes: `find` raising, `find` returning a
non-`MEDIA_AVAILABLE` state, or `find` returning `MEDIA_AVAILABLE` together
with the media object from `get_media` and the outcome of the URL fetch. -/
inductive IterBehavior where
  | findRaises (msg : String)
  | state (st : PollState)
  | mediaAvailable (media : MediaData) (fetch : FetchResult)

/-- The status update of the `if/elif` chain at `tasks.py` lines 35-52; a state
outside the known values produces no write. -/
def statusUpdate : PollState → Option DBWrite
  | PollState.connecting => some (DBWrite.setStatus "joining")
  | PollState.attending => some (DBWrite.setStatus "recording")
  | PollState.mediaProcessing => some (DBWrite.setStatus "processing")
  | PollState.other _ => none

/-- The `while retry_count < max_retries` loop of `tasks.py` lines 24-255,
with `max_retries = 120`.  The first `Nat` argument is fuel (structurally
decreasing; 120 suffices because every step increments `retry_count`), the
second is the current `retry_count`.  Returns the writes issued inside the
loop together with the final `retry_count`.  A `findRaises` iteration writes
the max-retries failure and breaks exactly when `retry_count >= max_retries`
(lines 244-252); a `mediaAvailable` iteration issues its single write and
breaks (line 243). -/
def loopAux (nid : String) (script : Nat → IterBehavior) :
    Nat → Nat → List DBWrite × Nat
  | 0, rc => ([], rc)
  | fuel + 1, rc =>
    if rc < 120 then
      match script (rc + 1) with
      | IterBehavior.findRaises msg =>
        if 120 ≤ rc + 1 then
          ([DBWrite.setFailed ("Max retries reached. Last error: " ++ msg)], rc + 1)
        else
          loopAux nid script fuel (rc + 1)
      | IterBehavior.state st =>
        match statusUpdate st with
        | some w =>
          let r := loopAux nid script fuel (rc + 1)
          (w :: r.1, r.2)
        | none => loopAux nid script fuel (rc + 1)
      | IterBehavior.mediaAvailable m f => ([mediaWrite nid m f], rc + 1)
    else ([], rc)

/-- A full run of `check_and_get_transcript` (`tasks.py` lines 12-263) under a
given per-iteration script, as the ordered list of document-store writes.  The
post-loop guard at lines 258-263 appends the timeout write whenever the final
`retry_count` reached `max_retries`, regardless of how the loop was left. -/
def check_and_get_transcript (nid : String) (script : Nat → IterBehavior) :
    List DBWrite :=
  let r := loopAux nid script 120 0
  if 120 ≤ r.2 then r.1 ++ [DBWrite.setTimeout timeoutReasonMsg] else r.1

/-! Embedding of the tracking-record handling in `src/backend/main.py`. -/

/-- A value stored in a tracking-record field: a string, or the transcript
segment array. -/
inductive DocVal where
  | str (s : String)
  | segs (l : List Segment)
deriving DecidableEq

/-- The tracking document inserted by `schedule_meeting` (`main.py` lines
503-506). -/
def scheduleTrackingDoc (nid : String) : List (String × DocVal) :=
  [("_id", DocVal.str nid), ("status", DocVal.str "scheduled")]

/-- The tracking document inserted by `auto_deploy_bot_to_event` (`main.py`
lines 734-737). -/
def autoDeployTrackingDoc (nid : String) : List (String × DocVal) :=
  [("_id", DocVal.str nid), ("status", DocVal.str "processing")]

/-- Field lookup in a document. -/
def docField (d : List (String × DocVal)) (k : String) : Option DocVal :=
  (d.find? (fun kv => kv.1 == k)).map Prod.snd

/-- Whether the filter `{"event_id": event_id}` used by `delete_calendar_event`
(`main.py` line 861) matches a document. -/
def eventIdFilterMatches (eid : String) (d : List (String × DocVal)) : Bool :=
  docField d "event_id" == some (DocVal.str eid)

/-- `transcript_collection.delete_many({"event_id": event_id})` (`main.py`
lines 861-862): the remaining collection and the deleted count. -/
def deleteManyByEventId (eid : String) (coll : List (List (String × DocVal))) :
    List (List (String × DocVal)) × Nat :=
  (coll.filter (fun d => ! eventIdFilterMatches eid d),
   (coll.filter (fun d => eventIdFilterMatches eid d)).length)

/-- MongoDB `$set` of a single field on a matched document: overwrite in place
when present, append when absent. -/
def upsertField (d : List (String × DocVal)) (k : String) (v : DocVal) :
    List (String × DocVal) :=
  if d.any (fun kv => kv.1 == k) then
    d.map (fun kv => if kv.1 == k then (k, v) else kv)
  else
    d ++ [(k, v)]

/-- MongoDB `$set` of several fields. -/
def mongoSet (d : List (String × DocVal)) (kvs : List (String × DocVal)) :
    List (String × DocVal) :=
  kvs.foldl (fun acc kv => upsertField acc kv.1 kv.2) d

/-- The `$set` document of each `update_one` call in `tasks.py` (lines 37-52,
217-225, 233-236, 248-251, 260-263). -/
def taskSetPairs : DBWrite → List (String × DocVal)
  | DBWrite.setStatus s => [("status", DocVal.str s)]
  | DBWrite.setReady t => [("status", DocVal.str "ready"), ("transcript_text", DocVal.segs t)]
  | DBWrite.setFailed r => [("status", DocVal.str "failed"), ("reason", DocVal.str r)]
  | DBWrite.setTimeout r => [("status", DocVal.str "timeout"), ("reason", DocVal.str r)]

/-- A tracking document after the polling task applied a sequence of its
writes. -/
def applyTaskWrites (d : List (String × DocVal)) (ws : List DBWrite) :
    List (String × DocVal) :=
  ws.foldl (fun acc w => mongoSet acc (taskSetPairs w)) d

/-! Concrete polling scripts and payloads used by the claim theorems. -/

/-- A remote client that reports `CONNECTING` on every poll. -/
def alwaysConnecting : Nat → IterBehavior := fun _ => IterBehavior.state PollState.connecting

/-- A remote client whose `find` raises on every poll. -/
def alwaysRaises : Nat → IterBehavior := fun _ => IterBehavior.findRaises "boom"

/-- A remote client that reports `MEDIA_AVAILABLE` from the first poll on,
with the given media object and fetch outcome. -/
def availScript (m : MediaData) (f : FetchResult) : Nat → IterBehavior :=
  fun _ => IterBehavior.mediaAvailable m f

/-- Media carrying a valid transcript URL. -/
def c1Media : MediaData := ⟨some ⟨some "https://files.example/t.json"⟩, none, none⟩

/-- A fetch whose body decodes to a one-segment transcript array. -/
def c1Fetch : FetchResult :=
  FetchResult.success "body"
    (some (Json.arr [Json.obj [("speaker", Json.str "Alice"), ("text", Json.str "Hello")]]))

/-- A run that sees an unknown remote state for 119 polls and first observes
`MEDIA_AVAILABLE` (with a good transcript) on the 120th poll. -/
def c1Script : Nat → IterBehavior := fun n =>
  if 120 ≤ n then IterBehavior.mediaAvailable c1Media c1Fetch
  else IterBehavior.state (PollState.other "unknown_state")

/-- The wrapper payload of the concrete normalizer scenario. -/
def c8Payload : Json :=
  Json.obj [("object", Json.str "transcript"),
    ("transcript", Json.arr
      [Json.obj [("speaker", Json.str "Alice"), ("text", Json.str "Hello")],
       Json.obj [("speaker", Json.str "Bob"), ("text", Json.str "")]])]

/-- Media with a valid transcript URL and no summary/title. -/
def c7Media : MediaData := ⟨some ⟨some "https://files.example/empty.json"⟩, none, none⟩

/-- A fetch whose body decodes to the empty array. -/
def c7Fetch : FetchResult := FetchResult.success "[]" (some (Json.arr []))

/-- C1: the claim that a persisted terminal status is never changed by a later
write of the same run fails on the code: when `MEDIA_AVAILABLE` is first
observed on the 120th iteration, the run persists `ready` and then the
post-loop guard (`tasks.py` lines 258-263) also fires, overwriting the
terminal status with `timeout`.  This theorem evaluates the embedded task on
that failing input. -/
theorem ready_overwritten_by_timeout_on_final_iteration :
    check_and_get_transcript "n1" c1Script =
      [DBWrite.setReady [⟨"Alice", "Hello"⟩], DBWrite.setTimeout timeoutReasonMsg] ∧
    (check_and_get_transcript "n1" c1Script).map DBWrite.statusOf = ["ready", "timeout"] :=
  ⟨rfl, rfl⟩

/-- C2: under a remote client that always returns `CONNECTING`, the run
performs exactly 120 iterations (each persisting `joining`) and then persists
terminal status `timeout` whose reason contains "did not complete within
expected time"; no write of the run carries status `ready` or `failed`. -/
theorem always_connecting_times_out_after_120 (nid : String) :
    check_and_get_transcript nid alwaysConnecting =
      List.replicate 120 (DBWrite.setStatus "joining") ++
        [DBWrite.setTimeout timeoutReasonMsg] ∧
    (∃ p q, timeoutReasonMsg = p ++ "did not complete within expected time" ++ q) ∧
    ∀ w ∈ check_and_get_transcript nid alwaysConnecting,
      ¬ DBWrite.statusOf w = "ready" ∧ ¬ DBWrite.statusOf w = "failed" := by
  refine ⟨rfl, ⟨"Notetaker ", "", rfl⟩, ?_⟩
  intro w hw
  have h : check_and_get_transcript nid alwaysConnecting =
      List.replicate 120 (DBWrite.setStatus "joining") ++
        [DBWrite.setTimeout timeoutReasonMsg] := rfl
  rw [h, List.mem_append] at hw
  rcases hw with h1 | h2
  · rw [List.eq_of_mem_replicate h1]
    exact ⟨by decide, by decide⟩
  · rw [List.mem_singleton.mp h2]
    exact ⟨by decide, by decide⟩

/-- C2 witness: the statement of `always_connecting_times_out_after_120`
instantiated at a concrete notetaker id. -/
theorem always_connecting_times_out_after_120_witness :
    check_and_get_transcript "w2" alwaysConnecting =
      List.replicate 120 (DBWrite.setStatus "joining") ++
        [DBWrite.setTimeout timeoutReasonMsg] :=
  (always_connecting_times_out_after_120 "w2").1

/-- C3: the claim that exhausting the retry budget under a permanently raising
`find` leaves final status `failed` fails on the code: the max-retries branch
(`tasks.py` lines 247-252) persists `failed` and breaks, but the post-loop
guard then also fires, so the last persisted status of the run is `timeout`.
This theorem evaluates the embedded task on that failing input. -/
theorem find_errors_final_status_is_timeout :
    check_and_get_transcript "n3" alwaysRaises =
      [DBWrite.setFailed ("Max retries reached. Last error: " ++ "boom"),
       DBWrite.setTimeout timeoutReasonMsg] ∧
    (check_and_get_transcript "n3" alwaysRaises).map DBWrite.statusOf =
      ["failed", "timeout"] ∧
    (check_and_get_transcript "n3" alwaysRaises).getLast? =
      some (DBWrite.setTimeout timeoutReasonMsg) :=
  ⟨rfl, rfl, rfl⟩

/-- C7: with `MEDIA_AVAILABLE` and a transcript payload decoding to `[]`, the
run persists terminal status `ready` (not `failed`) with a single segment whose
speaker is `System` and whose text is the explanatory empty-transcript
message. -/
theorem empty_payload_persists_ready_placeholder (nid : String) :
    check_and_get_transcript nid (availScript c7Media c7Fetch) =
      [DBWrite.setReady [⟨"System", emptyTranscriptMessage nid⟩]] ∧
    (check_and_get_transcript nid (availScript c7Media c7Fetch)).map DBWrite.statusOf =
      ["ready"] ∧
    ¬ (check_and_get_transcript nid (availScript c7Media c7Fetch)).map DBWrite.statusOf =
      ["failed"] ∧
    (∃ p q, emptyTranscriptMessage nid = p ++ "but no transcript content available" ++ q) := by
  refine ⟨rfl, rfl, ?_,
    ⟨"Meeting recorded (ID: " ++ nid ++ ") ", ". " ++ emptyReasonMsg, rfl⟩⟩
  intro h
  rw [show (check_and_get_transcript nid (availScript c7Media c7Fetch)).map DBWrite.statusOf
      = ["ready"] from rfl] at h
  exact absurd h (by decide)

/-- C7 witness: the statement of `empty_payload_persists_ready_placeholder`
instantiated at a concrete notetaker id. -/
theorem empty_payload_persists_ready_placeholder_witness :
    check_and_get_transcript "w7" (availScript c7Media c7Fetch) =
      [DBWrite.setReady [⟨"System", emptyTranscriptMessage "w7"⟩]] :=
  (empty_payload_persists_ready_placeholder "w7").1

/-- C8: the wrapper payload with Alice's and Bob's entries is unwrapped to its
`transcript` array, and normalization outputs exactly Alice's segment, dropping
Bob's empty-text segment. -/
theorem wrapper_payload_normalizes_dropping_empty (nid : String) :
    transcriptArray c8Payload =
      Json.arr [Json.obj [("speaker", Json.str "Alice"), ("text", Json.str "Hello")],
                Json.obj [("speaker", Json.str "Bob"), ("text", Json.str "")]] ∧
    normalizeTranscript nid c8Payload = Except.ok [⟨"Alice", "Hello"⟩] :=
  ⟨rfl, rfl⟩

/-- C8 witness: the statement of `wrapper_payload_normalizes_dropping_empty`
instantiated at a concrete notetaker id. -/
theorem wrapper_payload_normalizes_dropping_empty_witness :
    normalizeTranscript "w8" c8Payload = Except.ok [⟨"Alice", "Hello"⟩] :=
  (wrapper_payload_normalizes_dropping_empty "w8").2

/-- Media with a valid transcript URL for the five-state trace. -/
def c9Media : MediaData := ⟨some ⟨some "https://files.example/t9.json"⟩, none, none⟩

/-- A fetch whose body decodes to a non-empty transcript array. -/
def c9Fetch : FetchResult :=
  FetchResult.success "body"
    (some (Json.arr
      [Json.obj [("speaker", Json.str "Alice"), ("text", Json.str "Weekly sync notes")]]))

/-- The remote states `CONNECTING, ATTENDING, ATTENDING, MEDIA_PROCESSING,
MEDIA_AVAILABLE` observed on successive polls. -/
def c9Script : Nat → IterBehavior := fun n =>
  if n = 1 then IterBehavior.state PollState.connecting
  else if n = 2 then IterBehavior.state PollState.attending
  else if n = 3 then IterBehavior.state PollState.attending
  else if n = 4 then IterBehavior.state PollState.mediaProcessing
  else IterBehavior.mediaAvailable c9Media c9Fetch

/-- C9: the five-state trace persists exactly the status sequence `joining,
recording, recording, processing, ready` with a non-empty transcript, and any
iteration observing a remote state outside the four known values issues no
write and continues the loop unchanged. -/
theorem state_trace_and_unknown_state_no_write (nid : String) :
    ((check_and_get_transcript nid c9Script).map DBWrite.statusOf =
        ["joining", "recording", "recording", "processing", "ready"] ∧
      check_and_get_transcript nid c9Script =
        [DBWrite.setStatus "joining", DBWrite.setStatus "recording",
         DBWrite.setStatus "recording", DBWrite.setStatus "processing",
         DBWrite.setReady [⟨"Alice", "Weekly sync notes"⟩]]) ∧
    ∀ (script : Nat → IterBehavior) (s : String) (fuel rc : Nat),
      rc < 120 → script (rc + 1) = IterBehavior.state (PollState.other s) →
      loopAux nid script (fuel + 1) rc = loopAux nid script fuel (rc + 1) := by
  refine ⟨⟨rfl, rfl⟩, ?_⟩
  intro script s fuel rc hrc hs
  simp [loopAux, hrc, hs, statusUpdate]

/-- A script observing only unknown remote states. -/
def c9wScript : Nat → IterBehavior := fun _ => IterBehavior.state (PollState.other "media_error")

/-- C9 witness: the unknown-state part of `state_trace_and_unknown_state_no_write`
applied at a concrete script and iteration. -/
theorem state_trace_and_unknown_state_no_write_witness :
    loopAux "w9" c9wScript 1 0 = loopAux "w9" c9wScript 0 1 :=
  (state_trace_and_unknown_state_no_write "w9").2 c9wScript "media_error" 0 0 (by decide) rfl

/-! Helper lemmas about strings, shared by several claims. -/

/-- Character data of an appended string. -/
theorem strDataAppend : ∀ (a b : String), (a ++ b).data = a.data ++ b.data
  | String.mk _, String.mk _ => rfl

/-- The empty-transcript placeholder text is never the empty string. -/
theorem emptyTranscriptMessage_ne_empty (nid : String) :
    ¬ emptyTranscriptMessage nid = "" := by
  intro h
  have hd := congrArg String.data h
  simp only [emptyTranscriptMessage, strDataAppend] at hd
  simp at hd

/-! Field-shape predicates under which the normalizer cannot raise. -/

/-- Whether an optional field value is absent or a string: `strip()` succeeds
exactly then. -/
def strOrAbsent : Option Json → Bool
  | none => true
  | some (Json.str _) => true
  | some _ => false

/-- An entry whose `text` and `speaker` fields (when present) are strings. -/
def entryFieldsOk : Json → Bool
  | Json.obj kvs => strOrAbsent (jsonLookup kvs "text") && strOrAbsent (jsonLookup kvs "speaker")
  | _ => true

/-- `stripField` succeeds whenever the field is absent or a string. -/
theorem stripField_ok_of_strOrAbsent (kvs : List (String × Json)) (key dflt : String)
    (h : strOrAbsent (jsonLookup kvs key) = true) :
    ∃ t, stripField kvs key dflt = Except.ok t := by
  cases hl : jsonLookup kvs key with
  | none => exact ⟨pyStrip dflt, by simp [stripField, hl]⟩
  | some v =>
    rw [hl] at h
    cases v with
    | str s => exact ⟨pyStrip s, by simp [stripField, hl]⟩
    | null => simp [strOrAbsent] at h
    | bool b => simp [strOrAbsent] at h
    | num n => simp [strOrAbsent] at h
    | arr xs => simp [strOrAbsent] at h
    | obj f => simp [strOrAbsent] at h

/-- The cleaning loop succeeds whenever every entry has string-shaped fields;
every output segment whose text is empty comes from a plain-string entry that
strips to empty (and carries speaker `Speaker`), and every plain-string entry
is kept as a `Speaker` segment with its stripped text, even when that text is
empty. -/
theorem cleanEntries_ok_of_fields_ok (entries : List Json)
    (hOk : ∀ e ∈ entries, entryFieldsOk e = true) :
    ∃ segs, cleanEntries entries = Except.ok segs ∧
      (∀ s ∈ segs, s.text = "" →
        s.speaker = "Speaker" ∧ ∃ t, Json.str t ∈ entries ∧ pyStrip t = "") ∧
      (∀ t, Json.str t ∈ entries → (⟨"Speaker", pyStrip t⟩ : Segment) ∈ segs) := by
  revert hOk
  induction entries with
  | nil => exact fun _ => ⟨[], rfl, by simp, by simp⟩
  | cons e rest ih =>
    intro hOk
    obtain ⟨tail, htail, htb, htc⟩ := ih
      (fun x hx => hOk x (List.mem_cons_of_mem _ hx))
    cases e with
    | obj kvs =>
      have hok := hOk _ (List.mem_cons_self _ _)
      simp only [entryFieldsOk, Bool.and_eq_true] at hok
      obtain ⟨text, htext⟩ := stripField_ok_of_strOrAbsent kvs "text" "" hok.1
      obtain ⟨speaker, hspk⟩ := stripField_ok_of_strOrAbsent kvs "speaker" "Speaker" hok.2
      by_cases hT : text = ""
      · refine ⟨tail, by simp [cleanEntries, htext, hspk, htail, hT], ?_, ?_⟩
        · intro s hs hse
          obtain ⟨h1, t, ht, hts⟩ := htb s hs hse
          exact ⟨h1, t, List.mem_cons_of_mem _ ht, hts⟩
        · intro t ht
          rcases List.mem_cons.mp ht with h | h
          · exact Json.noConfusion h
          · exact htc t h
      · refine ⟨⟨speaker, text⟩ :: tail,
          by simp [cleanEntries, htext, hspk, htail, hT], ?_, ?_⟩
        · intro s hs hse
          rcases List.mem_cons.mp hs with h | h
          · rw [h] at hse
            exact absurd hse hT
          · obtain ⟨h1, t, ht, hts⟩ := htb s h hse
            exact ⟨h1, t, List.mem_cons_of_mem _ ht, hts⟩
        · intro t ht
          rcases List.mem_cons.mp ht with h | h
          · exact Json.noConfusion h
          · exact List.mem_cons_of_mem _ (htc t h)
    | str s =>
      refine ⟨⟨"Speaker", pyStrip s⟩ :: tail, by simp [cleanEntries, htail], ?_, ?_⟩
      · intro x hx hxe
        rcases List.mem_cons.mp hx with h | h
        · rw [h] at hxe
          exact ⟨by rw [h], s, List.mem_cons_self _ _, hxe⟩
        · obtain ⟨h1, t, ht, hts⟩ := htb x h hxe
          exact ⟨h1, t, List.mem_cons_of_mem _ ht, hts⟩
      · intro t ht
        rcases List.mem_cons.mp ht with h | h
        · have hts : t = s := Json.str.inj h
          rw [hts]
          exact List.mem_cons_self _ _
        · exact List.mem_cons_of_mem _ (htc t h)
    | null =>
      refine ⟨tail, by simp [cleanEntries, htail], ?_, ?_⟩
      · intro s hs hse
        obtain ⟨h1, t, ht, hts⟩ := htb s hs hse
        exact ⟨h1, t, List.mem_cons_of_mem _ ht, hts⟩
      · intro t ht
        rcases List.mem_cons.mp ht with h | h
        · exact Json.noConfusion h
        · exact htc t h
    | bool b =>
      refine ⟨tail, by simp [cleanEntries, htail], ?_, ?_⟩
      · intro s hs hse
        obtain ⟨h1, t, ht, hts⟩ := htb s hs hse
        exact ⟨h1, t, List.mem_cons_of_mem _ ht, hts⟩
      · intro t ht
        rcases List.mem_cons.mp ht with h | h
        · exact Json.noConfusion h
        · exact htc t h
    | num n =>
      refine ⟨tail, by simp [cleanEntries, htail], ?_, ?_⟩
      · intro s hs hse
        obtain ⟨h1, t, ht, hts⟩ := htb s hs hse
        exact ⟨h1, t, List.mem_cons_of_mem _ ht, hts⟩
      · intro t ht
        rcases List.mem_cons.mp ht with h | h
        · exact Json.noConfusion h
        · exact htc t h
    | arr xs =>
      refine ⟨tail, by simp [cleanEntries, htail], ?_, ?_⟩
      · intro s hs hse
        obtain ⟨h1, t, ht, hts⟩ := htb s hs hse
        exact ⟨h1, t, List.mem_cons_of_mem _ ht, hts⟩
      · intro t ht
        rcases List.mem_cons.mp ht with h | h
        · exact Json.noConfusion h
        · exact htc t h

/-- C4 counterexample: three JSON-decodable payloads refute the claim at
concrete inputs.  The bare array with the single plain-string element `" "`
normalizes to a kept segment whose text is empty (the plain-string branch at
`tasks.py` lines 121-125 has no empty-text check), refuting the non-empty-text
conjunct even for plain-string elements; the array holding one object whose
`text` field is the number 5 makes `entry.get(..).strip()` raise
`AttributeError`, and the object whose `transcript` field is the number 5
makes the `for` loop raise `TypeError`, refuting the never-raises conjunct
(both raises are caught by the task's generic handler at line 185). -/
theorem normalizer_keeps_empty_string_segment :
    (normalizeTranscript "n4" (Json.arr [Json.str " "]) = Except.ok [⟨"Speaker", ""⟩] ∧
      ¬ (∀ segs, normalizeTranscript "n4" (Json.arr [Json.str " "]) = Except.ok segs →
          ∀ s ∈ segs, ¬ s.text = "")) ∧
    normalizeTranscript "n4" (Json.arr [Json.obj [("text", Json.num 5)]]) =
      Except.error "AttributeError: value has no strip method" ∧
    normalizeTranscript "n4" (Json.obj [("transcript", Json.num 5)]) =
      Except.error "TypeError: value is not iterable" :=
  ⟨⟨rfl, fun h => h [⟨"Speaker", ""⟩] rfl ⟨"Speaker", ""⟩ (List.mem_singleton_self _) rfl⟩,
   rfl, rfl⟩

/-- C4 (amended): for any decoded payload whose unwrapped transcript value is
iterable and whose object elements carry only string-shaped (or absent)
`text`/`speaker` fields, the normalization step never raises; every output
segment whose text is empty comes from a plain-string array element that
strips to empty (and carries speaker `Speaker`) — so every segment produced
from an object element has non-empty text — and every plain-string element is
kept as a segment with its stripped text even when that text is empty.  The
two shape hypotheses and the plain-string exception are exactly the three
failure modes exhibited by the counterexample. -/
theorem normalizer_total_and_nonempty_amended (nid : String) (raw : Json)
    (entries : List Json)
    (hIter : pyIter (transcriptArray raw) = Except.ok entries)
    (hOk : ∀ e ∈ entries, entryFieldsOk e = true) :
    ∃ segs, normalizeTranscript nid raw = Except.ok segs ∧
      (∀ s ∈ segs, s.text = "" →
        s.speaker = "Speaker" ∧ ∃ t, Json.str t ∈ entries ∧ pyStrip t = "") ∧
      (∀ t, Json.str t ∈ entries → (⟨"Speaker", pyStrip t⟩ : Segment) ∈ segs) := by
  obtain ⟨clean, hclean, hb, hc⟩ := cleanEntries_ok_of_fields_ok entries hOk
  by_cases hcEmpty : clean = []
  · refine ⟨[⟨"System", emptyTranscriptMessage nid⟩],
      by simp [normalizeTranscript, hIter, hclean, hcEmpty], ?_, ?_⟩
    · intro s hs hse
      rw [List.mem_singleton.mp hs] at hse
      exact absurd hse (emptyTranscriptMessage_ne_empty nid)
    · intro t ht
      have hmem := hc t ht
      rw [hcEmpty] at hmem
      exact absurd hmem (List.not_mem_nil _)
  · exact ⟨clean, by simp [normalizeTranscript, hIter, hclean, hcEmpty], hb, hc⟩

/-- A payload mixing object elements with a plain-string element that strips
to empty. -/
def c4wPayload : List Json :=
  [Json.obj [("speaker", Json.str "Alice"), ("text", Json.str "Hello")],
   Json.str "  ",
   Json.obj [("speaker", Json.str "Bob"), ("text", Json.str "")]]

/-- C4 witness: the amended normalizer theorem applied to a concrete payload
containing an object element, a plain-string element stripping to empty, and
an object element with empty text. -/
theorem normalizer_total_and_nonempty_amended_witness :
    ∃ segs, normalizeTranscript "w4" (Json.arr c4wPayload) = Except.ok segs ∧
      (∀ s ∈ segs, s.text = "" →
        s.speaker = "Speaker" ∧ ∃ t, Json.str t ∈ c4wPayload ∧ pyStrip t = "") ∧
      (∀ t, Json.str t ∈ c4wPayload → (⟨"Speaker", pyStrip t⟩ : Segment) ∈ segs) :=
  normalizer_total_and_nonempty_amended "w4" (Json.arr c4wPayload) c4wPayload
    rfl (by decide)

/-- The basic-info fallback text stored when neither summary nor title is
available (`tasks.py` line 212). -/
def basicInfoMessage (nid : String) : String :=
  "Meeting recorded but transcript unavailable. Meeting ID: " ++ nid

/-- Media whose transcript object exists but carries no URL, while a summary
is available. -/
def c5Media : MediaData := ⟨some ⟨none⟩, some "A useful summary", none⟩

/-- C5 counterexample: with `MEDIA_AVAILABLE` and a media object whose
transcript object is present but has no URL, and a summary available, the run
persists `failed` — not the claimed `ready` with fallback text — because the
summary/title fallback (`tasks.py` lines 191-213) runs only when the
transcript object is absent, while the present-but-no-URL branch (lines
189-190) leaves `transcript_data` unset. -/
theorem transcript_without_url_persists_failed :
    check_and_get_transcript "n5" (availScript c5Media (FetchResult.otherError "unused")) =
      [DBWrite.setFailed failedFetchReasonMsg] ∧
    (check_and_get_transcript "n5"
        (availScript c5Media (FetchResult.otherError "unused"))).map DBWrite.statusOf =
      ["failed"] :=
  ⟨rfl, rfl⟩

/-- C5 (amended): when `MEDIA_AVAILABLE` is observed and the media carries no
transcript object at all, the task falls back to summary then title and, if
neither is present, persists a single `System` placeholder segment referencing
the session id with status `ready`; but when the transcript object is present
without a URL, no fallback is attempted and the task persists status
`failed`. -/
theorem missing_transcript_object_fallback_amended (nid : String) (m : MediaData)
    (f : FetchResult) :
    check_and_get_transcript nid (availScript m f) = [mediaWrite nid m f] ∧
    (m.transcript = none →
      (mediaWrite nid m f).statusOf = "ready" ∧
      (altText m = none →
        mediaWrite nid m f =
          DBWrite.setReady [⟨"System", basicInfoMessage nid⟩])) ∧
    (∀ t, m.transcript = some t → truthyStr t.url = none →
      mediaWrite nid m f = DBWrite.setFailed failedFetchReasonMsg) := by
  refine ⟨rfl, ?_, ?_⟩
  · intro hN
    constructor
    · cases hA : altText m with
      | none =>
        simp [mediaWrite, mediaTranscriptData, hN, hA, DBWrite.statusOf]
      | some a =>
        simp [mediaWrite, mediaTranscriptData, hN, hA, DBWrite.statusOf]
    · intro hA
      simp [mediaWrite, mediaTranscriptData, hN, hA, basicInfoMessage]
  · intro t hT hU
    simp [mediaWrite, mediaTranscriptData, hT, hU]

/-- C5 witness: the amended fallback theorem applied to media with no
transcript object, no summary and no title. -/
theorem missing_transcript_object_fallback_amended_witness :
    mediaWrite "w5" (⟨none, none, none⟩ : MediaData) (FetchResult.otherError "e") =
      DBWrite.setReady [⟨"System", basicInfoMessage "w5"⟩] :=
  ((missing_transcript_object_fallback_amended "w5" ⟨none, none, none⟩
      (FetchResult.otherError "e")).2.1 rfl).2 rfl

/-- Media carrying the given transcript URL and no summary/title. -/
def c6Media (u : String) : MediaData := ⟨some ⟨some u⟩, none, none⟩

/-- C6: when the transcript fetch returns HTTP 404 (no summary/title fallback
applies on the URL path), the run persists terminal status `failed`, and the
stored reason is the fixed diagnostic of the fetch failure, which contains
"failed to fetch transcript". -/
theorem http_404_fetch_persists_failed (nid u : String) (hu : ¬ u = "") :
    check_and_get_transcript nid
        (availScript (c6Media u) (FetchResult.httpStatusError 404)) =
      [DBWrite.setFailed failedFetchReasonMsg] ∧
    (∃ p q, failedFetchReasonMsg = p ++ "failed to fetch transcript" ++ q) := by
  constructor
  · have h1 : mediaWrite nid (c6Media u) (FetchResult.httpStatusError 404) =
        DBWrite.setFailed failedFetchReasonMsg := by
      simp [mediaWrite, mediaTranscriptData, c6Media, truthyStr, hu, fetchTranscriptData]
    calc check_and_get_transcript nid
          (availScript (c6Media u) (FetchResult.httpStatusError 404))
        = [mediaWrite nid (c6Media u) (FetchResult.httpStatusError 404)] := rfl
      _ = [DBWrite.setFailed failedFetchReasonMsg] := by rw [h1]
  · exact ⟨"Media available but ", " text - check logs for details", rfl⟩

/-- C6 witness: the 404 theorem applied at a concrete id and URL. -/
theorem http_404_fetch_persists_failed_witness :
    check_and_get_transcript "w6"
        (availScript (c6Media "https://files.example/t.json")
          (FetchResult.httpStatusError 404)) =
      [DBWrite.setFailed failedFetchReasonMsg] :=
  (http_404_fetch_persists_failed "w6" "https://files.example/t.json" (by decide)).1

/-! Lemmas for the tracking-record/event-filter claim. -/

/-- A field name present after a single-field `$set` was present before or is
the set key. -/
theorem keys_upsertField (d : List (String × DocVal)) (k : String) (v : DocVal)
    (x : String) (hx : x ∈ (upsertField d k v).map Prod.fst) :
    x ∈ d.map Prod.fst ∨ x = k := by
  unfold upsertField at hx
  by_cases h : d.any (fun kv => kv.1 == k)
  · rw [if_pos h] at hx
    simp only [List.map_map, List.mem_map, Function.comp] at hx
    obtain ⟨kv, hkv, hkveq⟩ := hx
    by_cases hk : kv.1 == k
    · right
      rw [if_pos hk] at hkveq
      exact hkveq.symm
    · left
      rw [if_neg hk] at hkveq
      exact hkveq ▸ List.mem_map_of_mem Prod.fst hkv
  · rw [if_neg h, List.map_append] at hx
    rcases List.mem_append.mp hx with h1 | h1
    · exact Or.inl h1
    · right
      simpa using h1

/-- A field name present after a multi-field `$set` was present before or is
among the set keys. -/
theorem keys_mongoSet (kvs : List (String × DocVal)) (d : List (String × DocVal))
    (x : String) (hx : x ∈ (mongoSet d kvs).map Prod.fst) :
    x ∈ d.map Prod.fst ∨ x ∈ kvs.map Prod.fst := by
  induction kvs generalizing d with
  | nil => exact Or.inl hx
  | cons kv rest ih =>
    have hx' : x ∈ (mongoSet (upsertField d kv.1 kv.2) rest).map Prod.fst := hx
    rcases ih _ hx' with h | h
    · rcases keys_upsertField d kv.1 kv.2 x h with h' | h'
      · exact Or.inl h'
      · right
        simp [h']
    · right
      rw [List.map_cons]
      exact List.mem_cons_of_mem _ h

/-- Every `$set` document issued by the polling task touches only the fields
`status`, `transcript_text` and `reason`. -/
theorem taskSetPairs_keys (w : DBWrite) (x : String)
    (hx : x ∈ (taskSetPairs w).map Prod.fst) :
    x = "status" ∨ x = "transcript_text" ∨ x = "reason" := by
  cases w <;> simp [taskSetPairs] at hx <;> tauto

/-- A document without an `event_id` field never gains one from the polling
task's updates. -/
theorem applyTaskWrites_no_event_id (ws : List DBWrite) (d0 : List (String × DocVal))
    (h0 : ¬ "event_id" ∈ d0.map Prod.fst) :
    ¬ "event_id" ∈ (applyTaskWrites d0 ws).map Prod.fst := by
  induction ws generalizing d0 with
  | nil => exact h0
  | cons w rest ih =>
    have h1 : ¬ "event_id" ∈ (mongoSet d0 (taskSetPairs w)).map Prod.fst := by
      intro hmem
      rcases keys_mongoSet (taskSetPairs w) d0 _ hmem with h | h
      · exact h0 h
      · rcases taskSetPairs_keys w _ h with h' | h' | h' <;> exact absurd h' (by decide)
    exact ih _ h1

/-- Looking up a field name absent from a document yields nothing. -/
theorem docField_eq_none_of_not_mem (d : List (String × DocVal)) (k : String)
    (h : ¬ k ∈ d.map Prod.fst) : docField d k = none := by
  have hf : d.find? (fun kv => kv.1 == k) = none :=
    List.find?_eq_none.mpr (fun kv hkv hbeq =>
      h (by
        have hk : kv.1 = k := by simpa using hbeq
        exact hk ▸ List.mem_map_of_mem Prod.fst hkv))
  simp [docField, hf]

/-- C10: tracking documents inserted by `schedule_meeting` and
`auto_deploy_bot_to_event` contain exactly the fields `_id` and `status`, the
polling task's updates never add an `event_id` field, and therefore the
cascading delete filter `{"event_id": event_id}` of `delete_calendar_event`
matches and deletes zero tracking records. -/
theorem tracking_records_never_match_event_filter
    (coll : List (List (String × DocVal)))
    (hcoll : ∀ d ∈ coll, ∃ nid ws,
      d = applyTaskWrites (scheduleTrackingDoc nid) ws ∨
      d = applyTaskWrites (autoDeployTrackingDoc nid) ws) :
    (∀ nid, (scheduleTrackingDoc nid).map Prod.fst = ["_id", "status"] ∧
      (autoDeployTrackingDoc nid).map Prod.fst = ["_id", "status"]) ∧
    ∀ eid, deleteManyByEventId eid coll = (coll, 0) := by
  refine ⟨fun nid => ⟨rfl, rfl⟩, ?_⟩
  intro eid
  have hmatch : ∀ d ∈ coll, eventIdFilterMatches eid d = false := by
    intro d hd
    obtain ⟨nid, ws, hcase⟩ := hcoll d hd
    have hnone : docField d "event_id" = none := by
      rcases hcase with h | h <;> subst h
      · exact docField_eq_none_of_not_mem _ _
          (applyTaskWrites_no_event_id ws _ (by simp [scheduleTrackingDoc]))
      · exact docField_eq_none_of_not_mem _ _
          (applyTaskWrites_no_event_id ws _ (by simp [autoDeployTrackingDoc]))
    simp [eventIdFilterMatches, hnone]
  unfold deleteManyByEventId
  rw [Prod.mk.injEq]
  constructor
  · rw [List.filter_eq_self]
    intro d hd
    simp [hmatch d hd]
  · rw [show (0 : Nat) = List.length ([] : List (List (String × DocVal))) from rfl]
    congr 1
    rw [List.filter_eq_nil_iff]
    intro d hd
    simp [hmatch d hd]

/-- C10 witness: the event-filter theorem applied to a concrete collection of
one scheduled and one auto-deployed tracking record. -/
theorem tracking_records_never_match_event_filter_witness :
    deleteManyByEventId "evt1" [scheduleTrackingDoc "na", autoDeployTrackingDoc "nb"] =
      ([scheduleTrackingDoc "na", autoDeployTrackingDoc "nb"], 0) :=
  (tracking_records_never_match_event_filter
      [scheduleTrackingDoc "na", autoDeployTrackingDoc "nb"]
      (by
        intro d hd
        rcases List.mem_cons.mp hd with h | hd2
        · exact ⟨"na", [], Or.inl h⟩
        · rcases List.mem_cons.mp hd2 with h | h
          · exact ⟨"nb", [], Or.inr h⟩
          · exact absurd h (List.not_mem_nil d))).2 "evt1"
